import Mathlib

set_option linter.unusedVariables false

/-!
Shallow embedding of the SC64 deployer link layer
(`sw/deployer/src/sc64/link.rs`).

Byte streams are lists of naturals; each element models one `u8` (device
encoders only produce values below 256).  The incoming wire is modelled as
the list of every byte that will ever arrive: a blocked read that the
stream can never satisfy is the source's 5-second "Read timeout".  The
outgoing side is a buffered writer (`WriteBuf`) so that flushing is
observable.  `Backend.try_read` is additionally modelled over an explicit
trace of raw read outcomes with elapsed-time stamps, to state the
deadline behaviour of the retry loop.
-/

/-- Wire data types (`enum DataType` in `link.rs`). -/
inductive DataType
| Command
| Response
| Packet
| KeepAlive
deriving DecidableEq

/-- `impl From<DataType> for u32`. -/
def DataType.toU32 : DataType → Nat
| .Command => 1
| .Response => 2
| .Packet => 3
| .KeepAlive => 0xCAFEBEEF

/-- `impl TryFrom<u32> for DataType`; `none` is the "Unknown data type"
    error case. -/
def DataType.ofU32 (value : Nat) : Option DataType :=
  if value = 1 then some .Command
  else if value = 2 then some .Response
  else if value = 3 then some .Packet
  else if value = 0xCAFEBEEF then some .KeepAlive
  else none

/-- `struct Command`: id byte, two u32 arguments, payload. -/
structure Command where
  id : Nat
  args : Nat × Nat
  data : List Nat
deriving DecidableEq

/-- `struct Response`: id byte, payload, error flag. -/
structure Response where
  id : Nat
  data : List Nat
  error : Bool
deriving DecidableEq

/-- `struct Packet`: id byte, payload. -/
structure Packet where
  id : Nat
  data : List Nat
deriving DecidableEq

/-- Big-endian byte list of a u32 (`u32::to_be_bytes`).  Every byte depends
    only on the value mod 2^32, so this also models a Rust `as u32`
    truncation followed by `to_be_bytes`. -/
def be4 (n : Nat) : List Nat :=
  [n / 16777216 % 256, n / 65536 % 256, n / 256 % 256, n % 256]

/-- `u32::from_be_bytes` on a 4-byte buffer. -/
def beToNat (bs : List Nat) : Nat :=
  bs.foldl (fun a b => 256 * a + b) 0

/-- A buffered writer: `flushed` holds bytes already pushed to the wire,
    `pending` holds bytes written but not yet flushed. -/
structure WriteBuf where
  flushed : List Nat
  pending : List Nat
deriving DecidableEq

/-- `Backend::write` / `write_all`: append to the pending buffer. -/
def WriteBuf.write (b : WriteBuf) (bytes : List Nat) : WriteBuf :=
  { b with pending := b.pending ++ bytes }

/-- `Backend::flush`: push all pending bytes to the wire. -/
def WriteBuf.flush (b : WriteBuf) : WriteBuf :=
  { flushed := b.flushed ++ b.pending, pending := [] }

/-- `Backend::send_command` (trait default, local framing): writes the
    literal bytes `b"CMD"`, the id byte, the two big-endian arguments and
    the raw data, then flushes.  No length prefix is written. -/
def Backend.send_command (command : Command) (out : WriteBuf) : WriteBuf :=
  (((((out.write [67, 77, 68]).write [command.id]).write
      (be4 command.args.1)).write (be4 command.args.2)).write command.data).flush

/-- `TcpBackend::send_command` (remote framing): writes the numeric Command
    tag, the id byte, the two arguments, an explicit big-endian data
    length and the data, then flushes. -/
def TcpBackend.send_command (command : Command) (out : WriteBuf) : WriteBuf :=
  ((((((out.write (be4 DataType.Command.toU32)).write [command.id]).write
      (be4 command.args.1)).write (be4 command.args.2)).write
      (be4 command.data.length)).write command.data).flush

/-- The spec's byte layout for a local (serial/FTDI) host→device command
    frame: `"CMD"` · id · arg0 (4 BE) · arg1 (4 BE) · data, no length
    prefix.  Stated from the spec's words, to be compared with
    `Backend.send_command`. -/
def specLocalCommandFrame (c : Command) : List Nat :=
  [67, 77, 68] ++ [c.id] ++ be4 c.args.1 ++ be4 c.args.2 ++ c.data

/-- The spec's byte layout for a remote (TCP) host→device command frame:
    tag 1 (4 BE) · id · arg0 · arg1 · length (4 BE) · data.  Stated from
    the spec's words, to be compared with `TcpBackend.send_command`. -/
def specRemoteCommandFrame (c : Command) : List Nat :=
  be4 1 ++ [c.id] ++ be4 c.args.1 ++ be4 c.args.2 ++ be4 c.data.length ++ c.data

/-- The token match in the local decode loop (`&header[0..3]` against
    `b"CMP"` / `b"PKT"` / `b"ERR"`); the result is
    `(packet_token, error)`; `none` is the "Unknown response token"
    error case. -/
def localToken (t : List Nat) : Option (Bool × Bool) :=
  if t = [67, 77, 80] then some (false, false)
  else if t = [80, 75, 84] then some (true, false)
  else if t = [69, 82, 82] then some (false, true)
  else none

/-- `Backend::process_incoming_data` (trait default, local framing) as a
    pure function of the incoming byte stream.  Returns the packet queue
    (whose pushes survive an error, as the Rust `VecDeque` does) and, on
    success, the optional `Response` together with the unread remainder of
    the stream.  A header read finding no bytes while not blocking exits
    the loop; a read the stream can never complete is the source's
    5-second "Read timeout". -/
def Backend.process_incoming_data (data_type : DataType) (s : List Nat)
    (packets : List Packet) :
    List Packet × Except String (Option Response × List Nat) :=
  if h : 4 ≤ s.length then
    let header := s.take 4
    match localToken (header.take 3) with
    | none => (packets, .error "Unknown response token")
    | some pe =>
      let id := header.getD 3 0
      let rest := s.drop 4
      if h2 : 4 ≤ rest.length then
        let length := beToNat (rest.take 4)
        let rest2 := rest.drop 4
        if h3 : length ≤ rest2.length then
          let data := rest2.take length
          let rest3 := rest2.drop length
          if pe.1 then
            if data_type = DataType.Packet then
              (packets ++ [⟨id, data⟩], .ok (none, rest3))
            else
              Backend.process_incoming_data data_type rest3 (packets ++ [⟨id, data⟩])
          else
            (packets, .ok (some ⟨id, data, pe.2⟩, rest3))
        else (packets, .error "Read timeout")
      else (packets, .error "Read timeout")
  else
    if s.length = 0 ∧ ¬(data_type = DataType.Response) then (packets, .ok (none, s))
    else (packets, .error "Read timeout")
termination_by s.length
decreasing_by
  simp [List.length_drop]
  omega

/-- `TcpBackend::process_incoming_data` (remote framing): every frame is
    prefixed by a 4-byte big-endian numeric tag.  KeepAlive frames are
    consumed with no effect; a Command tag is the "Unexpected payload data
    type received" error; an unknown tag fails in tag decoding. -/
def TcpBackend.process_incoming_data (data_type : DataType) (s : List Nat)
    (packets : List Packet) :
    List Packet × Except String (Option Response × List Nat) :=
  if h : 4 ≤ s.length then
    let rest := s.drop 4
    match DataType.ofU32 (beToNat (s.take 4)) with
    | none => (packets, .error "Unknown data type")
    | some .Response =>
      if h2 : 2 ≤ rest.length then
        let info := rest.take 2
        let rest2 := rest.drop 2
        if h3 : 4 ≤ rest2.length then
          let length := beToNat (rest2.take 4)
          let rest3 := rest2.drop 4
          if h4 : length ≤ rest3.length then
            (packets,
              .ok (some ⟨info.getD 0 0, rest3.take length, info.getD 1 0 != 0⟩,
                rest3.drop length))
          else (packets, .error "Read timeout")
        else (packets, .error "Read timeout")
      else (packets, .error "Read timeout")
    | some .Packet =>
      if h2 : 1 ≤ rest.length then
        let id := rest.getD 0 0
        let rest2 := rest.drop 1
        if h3 : 4 ≤ rest2.length then
          let length := beToNat (rest2.take 4)
          let rest3 := rest2.drop 4
          if h4 : length ≤ rest3.length then
            if data_type = DataType.Packet then
              (packets ++ [⟨id, rest3.take length⟩], .ok (none, rest3.drop length))
            else
              TcpBackend.process_incoming_data data_type (rest3.drop length)
                (packets ++ [⟨id, rest3.take length⟩])
          else (packets, .error "Read timeout")
        else (packets, .error "Read timeout")
      else (packets, .error "Read timeout")
    | some .KeepAlive => TcpBackend.process_incoming_data data_type rest packets
    | some .Command => (packets, .error "Unexpected payload data type received")
  else
    if s.length = 0 ∧ ¬(data_type = DataType.Response) then (packets, .ok (none, s))
    else (packets, .error "Read timeout")
termination_by s.length
decreasing_by
  · simp [List.length_drop]
    omega
  · simp [List.length_drop]
    omega

/-- Which backend implementation a `Link` owns.  `SerialBackend` and
    `FtdiBackend` both use the trait's default framing; `TcpBackend`
    overrides it. -/
inductive BackendKind
| serial
| ftdi
| tcp
deriving DecidableEq

/-- Dispatch of `process_incoming_data` over the backend variants. -/
def processIncomingData (k : BackendKind) :
    DataType → List Nat → List Packet →
    List Packet × Except String (Option Response × List Nat) :=
  match k with
  | .serial => Backend.process_incoming_data
  | .ftdi => Backend.process_incoming_data
  | .tcp => TcpBackend.process_incoming_data

/-- Dispatch of `send_command` over the backend variants. -/
def sendCommandVia (k : BackendKind) : Command → WriteBuf → WriteBuf :=
  match k with
  | .serial => Backend.send_command
  | .ftdi => Backend.send_command
  | .tcp => TcpBackend.send_command

/-- `struct Link`: one backend, the packet queue, and the two modelled
    wire directions. -/
structure Link where
  backend : BackendKind
  packets : List Packet
  inStream : List Nat
  out : WriteBuf
deriving DecidableEq

/-- `Link::receive_response`: one decode cycle wanting a Response.  A
    missing response is "No response was received"; a decode failure is
    wrapped as a command response error.  (How many stream bytes a failed
    decode consumed is not observable to any caller and is not modelled;
    the queue pushes it performed are kept, as in the source.) -/
def Link.receive_response (self : Link) : Except String Response × Link :=
  match processIncomingData self.backend DataType.Response self.inStream self.packets with
  | (q, .error e) => (.error ("Command response error: " ++ e), { self with packets := q })
  | (q, .ok (none, s)) =>
    (.error "No response was received", { self with packets := q, inStream := s })
  | (q, .ok (some r, s)) => (.ok r, { self with packets := q, inStream := s })

/-- `Link::execute_command_raw`. -/
def Link.execute_command_raw (self : Link) (command : Command)
    (no_response ignore_error : Bool) : Except String (List Nat) × Link :=
  let self1 := { self with out := sendCommandVia self.backend command self.out }
  if no_response then (.ok [], self1)
  else
    match self1.receive_response with
    | (.error e, self2) => (.error e, self2)
    | (.ok response, self2) =>
      if command.id ≠ response.id then
        (.error "Command response ID didn't match", self2)
      else if ¬ignore_error ∧ response.error then
        (.error "Command response error", self2)
      else
        (.ok response.data, self2)

/-- `Link::execute_command`. -/
def Link.execute_command (self : Link) (command : Command) :
    Except String (List Nat) × Link :=
  self.execute_command_raw command false false

/-- `Link::receive_packet`: pop the queue, touching the wire (one decode
    cycle wanting a Packet) only when the queue is empty. -/
def Link.receive_packet (self : Link) : Except String (Option Packet) × Link :=
  if self.packets.length = 0 then
    match processIncomingData self.backend DataType.Packet self.inStream self.packets with
    | (q, .error e) => (.error e, { self with packets := q })
    | (q, .ok (some _, s)) =>
      (.error "Unexpected command response in data stream",
        { self with packets := q, inStream := s })
    | (q, .ok (none, s)) =>
      match q with
      | [] => (.ok none, { self with packets := [], inStream := s })
      | p :: ps => (.ok (some p), { self with packets := ps, inStream := s })
  else
    match self.packets with
    | [] => (.ok none, self)
    | p :: ps => (.ok (some p), { self with packets := ps })

/-- `n` successive `Link::receive_packet` calls, collecting the results. -/
def Link.receive_packets : Nat → Link → List (Except String (Option Packet)) × Link
| 0, self => ([], self)
| n + 1, self =>
  let step := self.receive_packet
  let rest := Link.receive_packets n step.2
  (step.1 :: rest.1, rest.2)

/-- Device→host local packet frame: `"PKT"` · id · length (4 BE) · payload. -/
def encLocalPacket (p : Packet) : List Nat :=
  [80, 75, 84, p.id] ++ be4 p.data.length ++ p.data

/-- Device→host local response frame: `"CMP"`/`"ERR"` · id · length (4 BE)
    · payload. -/
def encLocalResponse (r : Response) : List Nat :=
  (if r.error then [69, 82, 82] else [67, 77, 80]) ++ [r.id] ++ be4 r.data.length ++ r.data

/-- Device→host remote packet frame: tag 3 · id · length (4 BE) · payload. -/
def encRemotePacket (p : Packet) : List Nat :=
  be4 3 ++ [p.id] ++ be4 p.data.length ++ p.data

/-- Device→host remote response frame: tag 2 · id · error byte ·
    length (4 BE) · payload. -/
def encRemoteResponse (r : Response) : List Nat :=
  be4 2 ++ [r.id, if r.error then 1 else 0] ++ be4 r.data.length ++ r.data

/-- Remote KeepAlive frame: just the tag. -/
def encKeepAlive : List Nat :=
  be4 0xCAFEBEEF

/-- The packet frame layout each backend's decoder expects. -/
def encPacketVia (k : BackendKind) : Packet → List Nat :=
  match k with
  | .tcp => encRemotePacket
  | _ => encLocalPacket

/-- The response frame layout each backend's decoder expects. -/
def encResponseVia (k : BackendKind) : Response → List Nat :=
  match k with
  | .tcp => encRemoteResponse
  | _ => encLocalResponse

/-- A sequence of packet frames on the wire. -/
def encPacketsVia (k : BackendKind) (ps : List Packet) : List Nat :=
  (ps.map (encPacketVia k)).flatten

/-- A device→host frame of the remote framing that may precede the
    response: a packet or a keep-alive. -/
inductive RFrame
| pkt (p : Packet)
| ka
deriving DecidableEq

/-- The wire bytes of an `RFrame`. -/
def encRFrame : RFrame → List Nat
| .pkt p => encRemotePacket p
| .ka => encKeepAlive

/-- The wire bytes of a frame sequence. -/
def encRFrames (fs : List RFrame) : List Nat :=
  (fs.map encRFrame).flatten

/-- Whether an `RFrame` is a packet frame. -/
def RFrame.isPkt : RFrame → Bool
| .pkt _ => true
| .ka => false

/-- Encodability of an `RFrame`: a packet's length must fit the 4-byte
    length field. -/
def RFrame.valid : RFrame → Prop
| .pkt p => p.data.length < 4294967296
| .ka => True

/-- The caller-observable part of a decode cycle: the queue and the
    returned response (the unread remainder of the stream is internal). -/
def obsOf (x : List Packet × Except String (Option Response × List Nat)) :
    List Packet × Except String (Option Response) :=
  (x.1, x.2.map Prod.fst)

/-- One raw `Backend::read` outcome inside `try_read`. -/
inductive ReadOutcome
| ok (n : Nat)
| transient
| fatal (msg : String)
deriving DecidableEq

/-- One `try_read` loop iteration: the read's outcome, and the elapsed
    milliseconds since `try_read` entry as observed by the deadline check
    that follows the read. -/
structure ReadEvent where
  outcome : ReadOutcome
  elapsed : Nat
deriving DecidableEq

/-- `READ_TIMEOUT`, in milliseconds. -/
def READ_TIMEOUT_MS : Nat := 5000

/-- `Backend::try_read` over an explicit trace of read outcomes.
    `Ok(0)` is unexpected end of stream; a transient error
    (interrupted / timed out / would-block) with nothing accumulated
    returns "no data yet" when not blocking; every retained iteration ends
    with the `timeout.elapsed() > READ_TIMEOUT` check.  An exhausted trace
    is a modelling artifact kept distinct from every source error. -/
def Backend.try_read (length : Nat) (block : Bool) (position : Nat) :
    List ReadEvent → Except String (Option Unit)
| [] => if length ≤ position then .ok (some ()) else .error "read trace exhausted"
| e :: evs =>
  if length ≤ position then .ok (some ())
  else
    match e.outcome with
    | .ok 0 => .error "Unexpected end of stream data"
    | .ok (n + 1) =>
      if READ_TIMEOUT_MS < e.elapsed then .error "Read timeout"
      else Backend.try_read length block (position + (n + 1)) evs
    | .transient =>
      if ¬block ∧ position = 0 then .ok none
      else if READ_TIMEOUT_MS < e.elapsed then .error "Read timeout"
      else Backend.try_read length block position evs
    | .fatal msg => .error msg

/-- Bytes delivered by the successful reads of a trace. -/
def okBytesOf : ReadOutcome → Nat
| .ok n => n
| .transient => 0
| .fatal _ => 0

/-- Total bytes delivered by a trace. -/
def okBytes (evs : List ReadEvent) : Nat :=
  (evs.map (fun e => okBytesOf e.outcome)).sum

/-- The iterations on which `try_read` keeps retrying: every read in the
    list delivers bytes or is a transient error that the loop retains
    (blocking, or something already accumulated), and every iteration
    passes the deadline check.  `pos` is the bytes accumulated on entry. -/
def retainedSteps (block : Bool) : Nat → List ReadEvent → Bool
| _, [] => true
| pos, e :: evs =>
  match e.outcome with
  | .ok 0 => false
  | .ok (n + 1) =>
    decide (e.elapsed ≤ READ_TIMEOUT_MS) && retainedSteps block (pos + (n + 1)) evs
  | .transient =>
    (block || decide (0 < pos)) && decide (e.elapsed ≤ READ_TIMEOUT_MS) &&
      retainedSteps block pos evs
  | .fatal _ => false

theorem beToNat_be4 (n : Nat) (h : n < 4294967296) : beToNat (be4 n) = n := by
  simp [beToNat, be4]
  omega

theorem be4_length (n : Nat) : (be4 n).length = 4 := rfl

theorem take4_be4_append (n : Nat) (x : List Nat) : (be4 n ++ x).take 4 = be4 n := by
  rw [show (4 : Nat) = (be4 n).length from rfl]
  exact List.take_left _ _

theorem drop4_be4_append (n : Nat) (x : List Nat) : (be4 n ++ x).drop 4 = x := by
  rw [show (4 : Nat) = (be4 n).length from rfl]
  exact List.drop_left _ _

theorem process_local_packet_step (dt : DataType) (p : Packet) (t : List Nat) (q : List Packet)
    (hv : p.data.length < 4294967296) :
    Backend.process_incoming_data dt (encLocalPacket p ++ t) q =
      if dt = DataType.Packet then (q ++ [p], .ok (none, t))
      else Backend.process_incoming_data dt t (q ++ [p]) := by
  have hshape : encLocalPacket p ++ t =
      80 :: 75 :: 84 :: p.id :: (be4 p.data.length ++ (p.data ++ t)) := by
    simp [encLocalPacket]
  rw [hshape]
  rw [Backend.process_incoming_data.eq_def]
  simp [localToken, take4_be4_append, drop4_be4_append, beToNat_be4 _ hv,
    List.take_left, List.drop_left, Nat.le_add_left, Nat.le_add_right, List.length_append]
  intro hcon
  rw [be4_length] at hcon
  omega

theorem process_local_response_step (dt : DataType) (r : Response) (t : List Nat)
    (q : List Packet) (hv : r.data.length < 4294967296) :
    Backend.process_incoming_data dt (encLocalResponse r ++ t) q = (q, .ok (some r, t)) := by
  obtain ⟨rid, rdata, rerr⟩ := r
  cases rerr
  case false =>
    have hshape : encLocalResponse ⟨rid, rdata, false⟩ ++ t =
        67 :: 77 :: 80 :: rid :: (be4 rdata.length ++ (rdata ++ t)) := by
      simp [encLocalResponse]
    rw [hshape, Backend.process_incoming_data.eq_def]
    simp [localToken, take4_be4_append, drop4_be4_append, beToNat_be4 _ hv,
      List.take_left, List.drop_left, Nat.le_add_left, Nat.le_add_right, List.length_append]
    rw [be4_length]
    omega
  case true =>
    have hshape : encLocalResponse ⟨rid, rdata, true⟩ ++ t =
        69 :: 82 :: 82 :: rid :: (be4 rdata.length ++ (rdata ++ t)) := by
      simp [encLocalResponse]
    rw [hshape, Backend.process_incoming_data.eq_def]
    simp [localToken, take4_be4_append, drop4_be4_append, beToNat_be4 _ hv,
      List.take_left, List.drop_left, Nat.le_add_left, Nat.le_add_right, List.length_append]
    rw [be4_length]
    omega

theorem process_local_nil (dt : DataType) (q : List Packet) :
    Backend.process_incoming_data dt [] q =
      if dt = DataType.Response then (q, .error "Read timeout") else (q, .ok (none, [])) := by
  rw [Backend.process_incoming_data.eq_def]
  cases dt <;> simp

theorem process_local_unknown_token (dt : DataType) (b0 b1 b2 b3 : Nat) (t : List Nat)
    (q : List Packet) (h : localToken [b0, b1, b2] = none) :
    Backend.process_incoming_data dt (b0 :: b1 :: b2 :: b3 :: t) q =
      (q, .error "Unknown response token") := by
  rw [Backend.process_incoming_data.eq_def]
  simp [h, Nat.le_add_left]

theorem beToNat_be4_ka : beToNat (be4 0xCAFEBEEF) = 0xCAFEBEEF := by decide

theorem ofU32_ka : DataType.ofU32 0xCAFEBEEF = some DataType.KeepAlive := by decide

theorem beToNat_be4_two : beToNat (be4 2) = 2 := by decide

theorem ofU32_two : DataType.ofU32 2 = some DataType.Response := by decide

theorem beToNat_be4_three : beToNat (be4 3) = 3 := by decide

theorem ofU32_three : DataType.ofU32 3 = some DataType.Packet := by decide

set_option maxHeartbeats 800000 in
theorem process_remote_packet_step (dt : DataType) (p : Packet) (t : List Nat) (q : List Packet)
    (hv : p.data.length < 4294967296) :
    TcpBackend.process_incoming_data dt (encRemotePacket p ++ t) q =
      if dt = DataType.Packet then (q ++ [p], .ok (none, t))
      else TcpBackend.process_incoming_data dt t (q ++ [p]) := by
  have hshape : encRemotePacket p ++ t =
      be4 3 ++ (p.id :: (be4 p.data.length ++ (p.data ++ t))) := by
    simp [encRemotePacket]
  rw [hshape, TcpBackend.process_incoming_data.eq_def]
  simp only [take4_be4_append, drop4_be4_append, beToNat_be4_three, ofU32_three,
    be4_length, List.length_append, List.length_cons]
  rw [dif_pos (by omega)]
  simp only [List.getD_cons_zero, List.drop_one, List.tail_cons, take4_be4_append,
    drop4_be4_append, beToNat_be4 _ hv, List.take_left, List.drop_left,
    be4_length, List.length_append, List.length_cons]
  rw [dif_pos (by omega), dif_pos (by omega), dif_pos (by omega)]

set_option maxHeartbeats 800000 in
theorem process_remote_response_step (dt : DataType) (r : Response) (t : List Nat)
    (q : List Packet) (hv : r.data.length < 4294967296) :
    TcpBackend.process_incoming_data dt (encRemoteResponse r ++ t) q =
      (q, .ok (some r, t)) := by
  obtain ⟨rid, rdata, rerr⟩ := r
  have hshape : encRemoteResponse ⟨rid, rdata, rerr⟩ ++ t =
      be4 2 ++ (rid :: (if rerr then 1 else 0) :: (be4 rdata.length ++ (rdata ++ t))) := by
    cases rerr <;> simp [encRemoteResponse]
  rw [hshape, TcpBackend.process_incoming_data.eq_def]
  simp only [take4_be4_append, drop4_be4_append, beToNat_be4_two, ofU32_two,
    be4_length, List.length_append, List.length_cons]
  rw [dif_pos (by omega)]
  simp only [List.take_succ_cons, List.take_zero, List.drop_succ_cons, List.drop_zero,
    List.getD_cons_zero, List.getD_cons_succ, take4_be4_append, drop4_be4_append,
    beToNat_be4 _ hv, List.take_left, List.drop_left,
    be4_length, List.length_append, List.length_cons]
  rw [dif_pos (by omega), dif_pos (by omega), dif_pos (by omega)]
  cases rerr <;> simp

theorem process_remote_nil (dt : DataType) (q : List Packet) :
    TcpBackend.process_incoming_data dt [] q =
      if dt = DataType.Response then (q, .error "Read timeout") else (q, .ok (none, [])) := by
  rw [TcpBackend.process_incoming_data.eq_def]
  cases dt <;> simp

theorem beToNat_be4_one : beToNat (be4 1) = 1 := by decide

theorem ofU32_one : DataType.ofU32 1 = some DataType.Command := by decide

theorem process_remote_command_tag (dt : DataType) (t : List Nat) (q : List Packet) :
    TcpBackend.process_incoming_data dt (be4 DataType.Command.toU32 ++ t) q =
      (q, .error "Unexpected payload data type received") := by
  rw [TcpBackend.process_incoming_data.eq_def]
  simp only [DataType.toU32, take4_be4_append, drop4_be4_append, beToNat_be4_one,
    ofU32_one, be4_length, List.length_append]
  rw [dif_pos (by omega)]

theorem process_remote_unknown_tag (dt : DataType) (b0 b1 b2 b3 : Nat) (t : List Nat)
    (q : List Packet) (h : DataType.ofU32 (beToNat [b0, b1, b2, b3]) = none) :
    TcpBackend.process_incoming_data dt (b0 :: b1 :: b2 :: b3 :: t) q =
      (q, .error "Unknown data type") := by
  rw [TcpBackend.process_incoming_data.eq_def]
  have htake : (b0 :: b1 :: b2 :: b3 :: t).take 4 = [b0, b1, b2, b3] := rfl
  simp only [htake, h, List.length_cons]
  rw [dif_pos (by omega)]

theorem process_local_run (ps : List Packet) (r : Response) (t : List Nat) (q : List Packet)
    (hps : ∀ p ∈ ps, p.data.length < 4294967296) (hr : r.data.length < 4294967296) :
    Backend.process_incoming_data DataType.Response
      ((ps.map encLocalPacket).flatten ++ (encLocalResponse r ++ t)) q =
      (q ++ ps, .ok (some r, t)) := by
  induction ps generalizing q with
  | nil =>
    simpa using process_local_response_step DataType.Response r t q hr
  | cons p ps ih =>
    have hmem : ∀ x ∈ ps, x.data.length < 4294967296 := by
      intro x hx
      exact hps x (List.mem_cons_of_mem p hx)
    have hshape : (((p :: ps).map encLocalPacket).flatten ++ (encLocalResponse r ++ t)) =
        encLocalPacket p ++ ((ps.map encLocalPacket).flatten ++ (encLocalResponse r ++ t)) := by
      simp
    rw [hshape, process_local_packet_step DataType.Response p _ q (hps p (List.mem_cons_self p ps))]
    simp only [ih (q ++ [p]) hmem, List.append_assoc, List.singleton_append]
    simp

theorem process_remote_run (ps : List Packet) (r : Response) (t : List Nat) (q : List Packet)
    (hps : ∀ p ∈ ps, p.data.length < 4294967296) (hr : r.data.length < 4294967296) :
    TcpBackend.process_incoming_data DataType.Response
      ((ps.map encRemotePacket).flatten ++ (encRemoteResponse r ++ t)) q =
      (q ++ ps, .ok (some r, t)) := by
  induction ps generalizing q with
  | nil =>
    simpa using process_remote_response_step DataType.Response r t q hr
  | cons p ps ih =>
    have hmem : ∀ x ∈ ps, x.data.length < 4294967296 := by
      intro x hx
      exact hps x (List.mem_cons_of_mem p hx)
    have hshape : (((p :: ps).map encRemotePacket).flatten ++ (encRemoteResponse r ++ t)) =
        encRemotePacket p ++ ((ps.map encRemotePacket).flatten ++ (encRemoteResponse r ++ t)) := by
      simp
    rw [hshape, process_remote_packet_step DataType.Response p _ q (hps p (List.mem_cons_self p ps))]
    simp only [ih (q ++ [p]) hmem, List.append_assoc, List.singleton_append]
    simp

theorem process_run (k : BackendKind) (ps : List Packet) (r : Response) (t : List Nat)
    (q : List Packet)
    (hps : ∀ p ∈ ps, p.data.length < 4294967296) (hr : r.data.length < 4294967296) :
    processIncomingData k DataType.Response
      (encPacketsVia k ps ++ (encResponseVia k r ++ t)) q =
      (q ++ ps, .ok (some r, t)) := by
  cases k <;>
    simp only [processIncomingData, encPacketsVia, encResponseVia] <;>
    first
      | exact process_local_run ps r t q hps hr
      | exact process_remote_run ps r t q hps hr

theorem receive_packet_cons (self : Link) (p : Packet) (ps : List Packet)
    (h : self.packets = p :: ps) :
    self.receive_packet = (.ok (some p), { self with packets := ps }) := by
  unfold Link.receive_packet
  simp [h]

theorem receive_packets_full (l : List Packet) (self : Link) (h : self.packets = l) :
    Link.receive_packets l.length self =
      (l.map fun p => Except.ok (some p), { self with packets := [] }) := by
  induction l generalizing self with
  | nil =>
    obtain ⟨k, ps, si, o⟩ := self
    simp only [Link.mk.injEq] at h ⊢
    simp [Link.receive_packets, h]
  | cons p ps ih =>
    simp only [List.length_cons, Link.receive_packets, receive_packet_cons self p ps h]
    rw [ih { self with packets := ps } rfl]
    simp

theorem execute_command_raw_of_decode (st : Link) (c : Command) (ie : Bool) (r : Response)
    (q : List Packet) (s : List Nat)
    (hdec : processIncomingData st.backend DataType.Response st.inStream st.packets =
      (q, .ok (some r, s))) :
    st.execute_command_raw c false ie =
      (if c.id ≠ r.id then .error "Command response ID didn't match"
       else if ¬ie ∧ r.error then .error "Command response error"
       else .ok r.data,
       { st with
         packets := q
         inStream := s
         out := sendCommandVia st.backend c st.out }) := by
  unfold Link.execute_command_raw Link.receive_response
  simp [hdec]
  split_ifs <;> rfl

theorem execute_command_raw_of_decode_error (st : Link) (c : Command) (ie : Bool)
    (q : List Packet) (e : String)
    (hdec : processIncomingData st.backend DataType.Response st.inStream st.packets =
      (q, .error e)) :
    st.execute_command_raw c false ie =
      (.error ("Command response error: " ++ e),
       { st with
         packets := q
         out := sendCommandVia st.backend c st.out }) := by
  unfold Link.execute_command_raw Link.receive_response
  simp [hdec]

theorem execute_command_raw_of_decode_none (st : Link) (c : Command) (ie : Bool)
    (q : List Packet) (s : List Nat)
    (hdec : processIncomingData st.backend DataType.Response st.inStream st.packets =
      (q, .ok (none, s))) :
    st.execute_command_raw c false ie =
      (.error "No response was received",
       { st with
         packets := q
         inStream := s
         out := sendCommandVia st.backend c st.out }) := by
  unfold Link.execute_command_raw Link.receive_response
  simp [hdec]

/-- C1: for every Command and incoming stream, `execute_command_raw` with
    `no_response = false` (and so `execute_command`) either fails or returns
    the payload of the decoded Response, whose id then equals the Command's
    id; when the decoded Response's id differs it fails with the
    "Command response ID didn't match" error and never returns that
    Response's payload. -/
theorem execute_command_returns_matching_id (st : Link) (c : Command) (ie : Bool) :
    (st.execute_command c = st.execute_command_raw c false false) ∧
    (∀ d l', st.execute_command_raw c false ie = (.ok d, l') →
      ∃ r q s,
        processIncomingData st.backend DataType.Response st.inStream st.packets =
          (q, .ok (some r, s)) ∧ r.id = c.id ∧ d = r.data) ∧
    (∀ r q s,
      processIncomingData st.backend DataType.Response st.inStream st.packets =
        (q, .ok (some r, s)) → r.id ≠ c.id →
      (st.execute_command_raw c false ie).1 = .error "Command response ID didn't match") := by
  refine ⟨rfl, ?_, ?_⟩
  · intro d l' h
    cases hp : processIncomingData st.backend DataType.Response st.inStream st.packets with
    | mk q res =>
      cases res with
      | error e =>
        rw [execute_command_raw_of_decode_error st c ie q e hp] at h
        simp at h
      | ok pair =>
        obtain ⟨ro, s⟩ := pair
        cases ro with
        | none =>
          rw [execute_command_raw_of_decode_none st c ie q s hp] at h
          simp at h
        | some r =>
          rw [execute_command_raw_of_decode st c ie r q s hp] at h
          rw [Prod.mk.injEq] at h
          split_ifs at h with h1 h2
          · exact absurd h.1 (by simp)
          · exact absurd h.1 (by simp)
          · exact ⟨r, q, s, rfl, (not_ne_iff.mp h1).symm, by simpa using h.1.symm⟩
  · intro r q s hp hne
    rw [execute_command_raw_of_decode st c ie r q s hp]
    simp [Ne.symm hne]

/-- Witness for C1: a local device reply `"CMP"`, id 7 to a command with
    id 5 makes `execute_command_raw` fail with the identity-mismatch
    error. -/
theorem execute_command_returns_matching_id_witness :
    (Link.execute_command_raw ⟨BackendKind.serial, [], encLocalResponse ⟨7, [], false⟩, ⟨[], []⟩⟩
        ⟨5, (0, 0), []⟩ false false).1 = .error "Command response ID didn't match" :=
  (execute_command_returns_matching_id
      ⟨BackendKind.serial, [], encLocalResponse ⟨7, [], false⟩, ⟨[], []⟩⟩
      ⟨5, (0, 0), []⟩ false).2.2 ⟨7, [], false⟩ [] []
    (by simpa [processIncomingData] using
      process_local_response_step DataType.Response ⟨7, [], false⟩ [] [] (by decide))
    (by decide)

/-- C7: when the decoded Response matches the Command's id and carries the
    error flag, `execute_command_raw` with `ignore_error = false` fails
    with the command-response error, and with `ignore_error = true`
    returns that Response's payload unchanged; with the flag clear the
    payload is returned for either `ignore_error`. -/
theorem execute_error_flag_handling (st : Link) (c : Command) (r : Response)
    (q : List Packet) (s : List Nat)
    (hdec : processIncomingData st.backend DataType.Response st.inStream st.packets =
      (q, .ok (some r, s)))
    (hid : r.id = c.id) :
    (r.error = true →
      (st.execute_command_raw c false false).1 = .error "Command response error" ∧
      (st.execute_command_raw c false true).1 = .ok r.data) ∧
    (r.error = false →
      ∀ ie, (st.execute_command_raw c false ie).1 = .ok r.data) := by
  constructor
  · intro herr
    constructor
    · rw [execute_command_raw_of_decode st c false r q s hdec]
      simp [hid, herr]
    · rw [execute_command_raw_of_decode st c true r q s hdec]
      simp [hid, herr]
  · intro herr ie
    rw [execute_command_raw_of_decode st c ie r q s hdec]
    simp [hid, herr]

/-- Witness for C7: a local device reply `"ERR"`, id 5, payload
    `[1, 2, 3]` to a command with id 5: with `ignore_error = false` the
    call fails with the command-response error, with `ignore_error = true`
    it returns `[1, 2, 3]`. -/
theorem execute_error_flag_handling_witness :
    (Link.execute_command_raw ⟨BackendKind.serial, [], encLocalResponse ⟨5, [1, 2, 3], true⟩, ⟨[], []⟩⟩
        ⟨5, (0, 0), []⟩ false false).1 = .error "Command response error" ∧
    (Link.execute_command_raw ⟨BackendKind.serial, [], encLocalResponse ⟨5, [1, 2, 3], true⟩, ⟨[], []⟩⟩
        ⟨5, (0, 0), []⟩ false true).1 = .ok [1, 2, 3] :=
  (execute_error_flag_handling
      ⟨BackendKind.serial, [], encLocalResponse ⟨5, [1, 2, 3], true⟩, ⟨[], []⟩⟩
      ⟨5, (0, 0), []⟩ ⟨5, [1, 2, 3], true⟩ [] []
      (by simpa [processIncomingData] using
        process_local_response_step DataType.Response ⟨5, [1, 2, 3], true⟩ [] [] (by decide))
      (by decide)).1 rfl

/-- C3: after the queued packets have been popped by as many
    `receive_packet` calls (each returning the packets in order, without
    touching the wire), a further call with no new wire data performs one
    empty-handed decode cycle and returns no packet at all — in
    particular never a previously delivered one. -/
theorem receive_packet_no_stale (k : BackendKind) (ps : List Packet) (out : WriteBuf) :
    (Link.receive_packets ps.length ⟨k, ps, [], out⟩ =
      (ps.map fun p => Except.ok (some p), ⟨k, [], [], out⟩)) ∧
    (Link.receive_packet ⟨k, [], [], out⟩ = (.ok none, ⟨k, [], [], out⟩)) ∧
    (∀ p t, p.data.length < 4294967296 →
      Link.receive_packet ⟨k, [], encPacketVia k p ++ t, out⟩ =
        (.ok (some p), ⟨k, [], t, out⟩)) := by
  refine ⟨receive_packets_full ps ⟨k, ps, [], out⟩ rfl, ?_, ?_⟩
  · cases k <;>
      simp [Link.receive_packet, processIncomingData, process_local_nil, process_remote_nil]
  · intro p t hv
    have hl := process_local_packet_step DataType.Packet p t [] hv
    have hr := process_remote_packet_step DataType.Packet p t [] hv
    cases k <;>
      simp [Link.receive_packet, processIncomingData, encPacketVia, hl, hr]

/-- Witness for C3: with an empty queue, a `"PKT"` id 9 payload `[0xAA]`
    frame arriving on the wire is decoded and returned. -/
theorem receive_packet_no_stale_witness :
    Link.receive_packet ⟨BackendKind.serial, [],
        encPacketVia BackendKind.serial ⟨9, [170]⟩ ++ [], ⟨[], []⟩⟩ =
      (.ok (some ⟨9, [170]⟩), ⟨BackendKind.serial, [], [], ⟨[], []⟩⟩) :=
  (receive_packet_no_stale BackendKind.serial [] ⟨[], []⟩).2.2 ⟨9, [170]⟩ [] (by decide)

/-- C2: every packet frame on the wire before the matching Response is
    appended to the queue during `execute_command_raw`, in wire order, and
    subsequent `receive_packet` calls deliver the whole queue in exactly
    that order, with none lost, duplicated or reordered. -/
theorem packets_before_response_preserved (k : BackendKind) (c : Command) (ie : Bool)
    (q0 ps : List Packet) (r : Response) (t : List Nat) (out : WriteBuf)
    (hps : ∀ p ∈ ps, p.data.length < 4294967296) (hr : r.data.length < 4294967296) :
    let st : Link := ⟨k, q0, encPacketsVia k ps ++ (encResponseVia k r ++ t), out⟩
    let res := st.execute_command_raw c false ie
    res.2.packets = q0 ++ ps ∧ res.2.inStream = t ∧
      Link.receive_packets (q0 ++ ps).length res.2 =
        ((q0 ++ ps).map fun p => Except.ok (some p), { res.2 with packets := [] }) := by
  intro st res
  have hdec : processIncomingData st.backend DataType.Response st.inStream st.packets =
      (q0 ++ ps, .ok (some r, t)) := process_run k ps r t q0 hps hr
  have hres : res = st.execute_command_raw c false ie := rfl
  rw [execute_command_raw_of_decode st c ie r (q0 ++ ps) t hdec] at hres
  refine ⟨by rw [hres], by rw [hres], ?_⟩
  exact receive_packets_full (q0 ++ ps) res.2 (by rw [hres])

/-- Witness for C2: a local `"PKT"` id 9 payload `[0xAA]` frame before a
    `"CMP"` id 5 response is queued and delivered by the next
    `receive_packet` call. -/
theorem packets_before_response_preserved_witness :
    let st : Link := ⟨BackendKind.serial, [],
      encPacketsVia BackendKind.serial [⟨9, [170]⟩] ++
        (encResponseVia BackendKind.serial ⟨5, [], false⟩ ++ []), ⟨[], []⟩⟩
    let res := st.execute_command_raw ⟨5, (0, 0), []⟩ false false
    res.2.packets = [] ++ [⟨9, [170]⟩] ∧ res.2.inStream = [] ∧
      Link.receive_packets ([] ++ [(⟨9, [170]⟩ : Packet)]).length res.2 =
        (([] ++ [(⟨9, [170]⟩ : Packet)]).map fun p => Except.ok (some p),
          { res.2 with packets := [] }) :=
  packets_before_response_preserved BackendKind.serial ⟨5, (0, 0), []⟩ false
    [] [⟨9, [170]⟩] ⟨5, [], false⟩ [] ⟨[], []⟩ (by decide) (by decide)

/-- C9: when `execute_command_raw` fails after a Response was decoded
    (identity mismatch, or error flag with `ignore_error = false`), the
    packets queued while waiting for that Response are all still in the
    queue, in arrival order, and later `receive_packet` calls still
    deliver them: the failure does not clear, truncate or reorder the
    queue. -/
theorem failed_execute_keeps_queue (k : BackendKind) (c : Command) (ie : Bool)
    (q0 ps : List Packet) (r : Response) (t : List Nat) (out : WriteBuf)
    (hps : ∀ p ∈ ps, p.data.length < 4294967296) (hr : r.data.length < 4294967296)
    (hfail : r.id ≠ c.id ∨ (r.error = true ∧ ie = false)) :
    let st : Link := ⟨k, q0, encPacketsVia k ps ++ (encResponseVia k r ++ t), out⟩
    let res := st.execute_command_raw c false ie
    (∃ e, res.1 = Except.error e) ∧ res.2.packets = q0 ++ ps ∧ res.2.inStream = t ∧
      Link.receive_packets (q0 ++ ps).length res.2 =
        ((q0 ++ ps).map fun p => Except.ok (some p), { res.2 with packets := [] }) := by
  intro st res
  have hdec : processIncomingData st.backend DataType.Response st.inStream st.packets =
      (q0 ++ ps, .ok (some r, t)) := process_run k ps r t q0 hps hr
  have hres : res = st.execute_command_raw c false ie := rfl
  rw [execute_command_raw_of_decode st c ie r (q0 ++ ps) t hdec] at hres
  refine ⟨?_, by rw [hres], by rw [hres], ?_⟩
  · rw [hres]
    by_cases hid : c.id ≠ r.id
    · exact ⟨"Command response ID didn't match", by simp [hid]⟩
    · rcases hfail with hne | ⟨herr, hie⟩
      · exact absurd (not_ne_iff.mp hid).symm hne
      · subst hie
        exact ⟨"Command response error", by simp [hid, herr]⟩
  · exact receive_packets_full (q0 ++ ps) res.2 (by rw [hres])

/-- Witness for C9: a local `"PKT"` id 9 frame followed by a `"CMP"` id 7
    response to a command with id 5: the call fails, yet the packet stays
    queued and is still delivered. -/
theorem failed_execute_keeps_queue_witness :
    let st : Link := ⟨BackendKind.serial, [],
      encPacketsVia BackendKind.serial [⟨9, [170]⟩] ++
        (encResponseVia BackendKind.serial ⟨7, [], false⟩ ++ []), ⟨[], []⟩⟩
    let res := st.execute_command_raw ⟨5, (0, 0), []⟩ false false
    (∃ e, res.1 = Except.error e) ∧ res.2.packets = [] ++ [⟨9, [170]⟩] ∧
      res.2.inStream = [] ∧
      Link.receive_packets ([] ++ [(⟨9, [170]⟩ : Packet)]).length res.2 =
        (([] ++ [(⟨9, [170]⟩ : Packet)]).map fun p => Except.ok (some p),
          { res.2 with packets := [] }) :=
  failed_execute_keeps_queue BackendKind.serial ⟨5, (0, 0), []⟩ false
    [] [⟨9, [170]⟩] ⟨7, [], false⟩ [] ⟨[], []⟩ (by decide) (by decide)
    (Or.inl (by decide))

theorem process_remote_ka_step (dt : DataType) (t : List Nat) (q : List Packet) :
    TcpBackend.process_incoming_data dt (encKeepAlive ++ t) q =
      TcpBackend.process_incoming_data dt t q := by
  have hshape : encKeepAlive ++ t = be4 0xCAFEBEEF ++ t := by
    simp [encKeepAlive]
  rw [hshape, TcpBackend.process_incoming_data.eq_def]
  simp only [take4_be4_append, drop4_be4_append, beToNat_be4_ka, ofU32_ka,
    be4_length, List.length_append]
  rw [dif_pos (by omega)]


/-- C4: in the remote framing, dropping every KeepAlive frame from the
    frames preceding the rest of the stream leaves the decode loop's
    observable result — the returned Response and the final queue —
    unchanged: KeepAlives never enter the queue and never alter what is
    returned. -/
theorem keepalive_frames_transparent (dt : DataType) (fs : List RFrame) (t : List Nat)
    (q : List Packet) (hv : ∀ f ∈ fs, f.valid) :
    obsOf (TcpBackend.process_incoming_data dt (encRFrames fs ++ t) q) =
      obsOf (TcpBackend.process_incoming_data dt (encRFrames (fs.filter RFrame.isPkt) ++ t) q) := by
  induction fs generalizing q with
  | nil => rfl
  | cons f fs ih =>
    have hmem : ∀ x ∈ fs, x.valid := fun x hx => hv x (List.mem_cons_of_mem f hx)
    cases f with
    | ka =>
      have hshape : encRFrames (RFrame.ka :: fs) ++ t =
          encKeepAlive ++ (encRFrames fs ++ t) := by
        simp [encRFrames, encRFrame]
      rw [hshape, process_remote_ka_step]
      have hfilter : (RFrame.ka :: fs).filter RFrame.isPkt = fs.filter RFrame.isPkt := by
        simp [RFrame.isPkt]
      rw [hfilter]
      exact ih q hmem
    | pkt p =>
      have hvp : p.data.length < 4294967296 := hv (RFrame.pkt p) (List.mem_cons_self _ _)
      have hshape : encRFrames (RFrame.pkt p :: fs) ++ t =
          encRemotePacket p ++ (encRFrames fs ++ t) := by
        simp [encRFrames, encRFrame]
      have hfilter : (RFrame.pkt p :: fs).filter RFrame.isPkt =
          RFrame.pkt p :: fs.filter RFrame.isPkt := by
        simp [RFrame.isPkt]
      have hshape2 : encRFrames (RFrame.pkt p :: fs.filter RFrame.isPkt) ++ t =
          encRemotePacket p ++ (encRFrames (fs.filter RFrame.isPkt) ++ t) := by
        simp [encRFrames, encRFrame]
      rw [hshape, hfilter, hshape2, process_remote_packet_step dt p _ q hvp,
        process_remote_packet_step dt p _ q hvp]
      by_cases hdt : dt = DataType.Packet
      · simp [hdt, obsOf, Except.map]
      · simp only [if_neg hdt]
        exact ih (q ++ [p]) hmem

/-- Witness for C4: two KeepAlive frames around a packet frame, before a
    Response, decode exactly like the packet frame alone before the same
    Response. -/
theorem keepalive_frames_transparent_witness :
    obsOf (TcpBackend.process_incoming_data DataType.Response
        (encRFrames [RFrame.ka, RFrame.pkt ⟨9, [170]⟩, RFrame.ka] ++
          encRemoteResponse ⟨5, [], false⟩) []) =
      obsOf (TcpBackend.process_incoming_data DataType.Response
        (encRFrames ([RFrame.ka, RFrame.pkt ⟨9, [170]⟩, RFrame.ka].filter RFrame.isPkt) ++
          encRemoteResponse ⟨5, [], false⟩) []) :=
  keepalive_frames_transparent DataType.Response
    [RFrame.ka, RFrame.pkt ⟨9, [170]⟩, RFrame.ka] (encRemoteResponse ⟨5, [], false⟩) []
    (by intro f hf; fin_cases hf <;> simp [RFrame.valid])

/-- C5: for every Command, the local `send_command` pushes to the wire
    exactly `"CMD"` · id · arg0 (4 BE) · arg1 (4 BE) · data with no length
    prefix, the remote `send_command` pushes exactly tag 1 (4 BE) · id ·
    arg0 · arg1 · length (4 BE) · data; both leave nothing unflushed and
    write nothing else. -/
theorem send_command_wire_format (c : Command) (out : WriteBuf) :
    Backend.send_command c out =
      ⟨out.flushed ++ (out.pending ++ specLocalCommandFrame c), []⟩ ∧
    TcpBackend.send_command c out =
      ⟨out.flushed ++ (out.pending ++ specRemoteCommandFrame c), []⟩ := by
  constructor <;>
    simp [Backend.send_command, TcpBackend.send_command, WriteBuf.write, WriteBuf.flush,
      specLocalCommandFrame, specRemoteCommandFrame, DataType.toU32]

/-- C6: a local header whose first three bytes are not `"CMP"`, `"PKT"` or
    `"ERR"` makes the local decode loop fail with "Unknown response
    token", and a remote tag that is none of 1, 2, 3, 0xCAFEBEEF makes the
    remote decode loop fail with "Unknown data type"; no such frame is
    skipped. -/
theorem unknown_token_or_tag_fails (dt : DataType) (q : List Packet) :
    (∀ b0 b1 b2 b3 t, [b0, b1, b2] ≠ [67, 77, 80] → [b0, b1, b2] ≠ [80, 75, 84] →
      [b0, b1, b2] ≠ [69, 82, 82] →
      Backend.process_incoming_data dt (b0 :: b1 :: b2 :: b3 :: t) q =
        (q, .error "Unknown response token")) ∧
    (∀ b0 b1 b2 b3 t, beToNat [b0, b1, b2, b3] ≠ 1 → beToNat [b0, b1, b2, b3] ≠ 2 →
      beToNat [b0, b1, b2, b3] ≠ 3 → beToNat [b0, b1, b2, b3] ≠ 0xCAFEBEEF →
      TcpBackend.process_incoming_data dt (b0 :: b1 :: b2 :: b3 :: t) q =
        (q, .error "Unknown data type")) := by
  constructor
  · intro b0 b1 b2 b3 t h1 h2 h3
    exact process_local_unknown_token dt b0 b1 b2 b3 t q (by simp [localToken, h1, h2, h3])
  · intro b0 b1 b2 b3 t h1 h2 h3 h4
    exact process_remote_unknown_tag dt b0 b1 b2 b3 t q
      (by simp [DataType.ofU32, h1, h2, h3, h4])

/-- Witness for C6: the all-zero header is rejected by both framings. -/
theorem unknown_token_or_tag_fails_witness :
    Backend.process_incoming_data DataType.Response [0, 0, 0, 0] [] =
      ([], .error "Unknown response token") ∧
    TcpBackend.process_incoming_data DataType.Response [0, 0, 0, 0] [] =
      ([], .error "Unknown data type") :=
  ⟨(unknown_token_or_tag_fails DataType.Response []).1 0 0 0 0 []
      (by decide) (by decide) (by decide),
    (unknown_token_or_tag_fails DataType.Response []).2 0 0 0 0 []
      (by decide) (by decide) (by decide) (by decide)⟩

/-- C10: a device-originated frame bearing the Command tag (value 1) is
    always rejected by the remote decode loop with the "Unexpected payload
    data type received" error — never accepted or consumed as data — while
    a numerically unrecognized tag fails earlier, in tag decoding, with
    the distinct "Unknown data type" error. -/
theorem remote_command_tag_rejected (dt : DataType) (t : List Nat) (q : List Packet) :
    (TcpBackend.process_incoming_data dt (be4 DataType.Command.toU32 ++ t) q =
      (q, .error "Unexpected payload data type received")) ∧
    (∀ b0 b1 b2 b3, beToNat [b0, b1, b2, b3] ≠ 1 → beToNat [b0, b1, b2, b3] ≠ 2 →
      beToNat [b0, b1, b2, b3] ≠ 3 → beToNat [b0, b1, b2, b3] ≠ 0xCAFEBEEF →
      TcpBackend.process_incoming_data dt (b0 :: b1 :: b2 :: b3 :: t) q =
        (q, .error "Unknown data type") ∧
        "Unexpected payload data type received" ≠ "Unknown data type") := by
  constructor
  · exact process_remote_command_tag dt t q
  · intro b0 b1 b2 b3 h1 h2 h3 h4
    refine ⟨?_, by decide⟩
    exact process_remote_unknown_tag dt b0 b1 b2 b3 t q
      (by simp [DataType.ofU32, h1, h2, h3, h4])

/-- Witness for C10: tag bytes `[0, 0, 0, 9]` (value 9) fail with the
    unknown-data-type error, distinct from the Command-tag rejection. -/
theorem remote_command_tag_rejected_witness :
    TcpBackend.process_incoming_data DataType.Response [0, 0, 0, 9] [] =
      ([], .error "Unknown data type") ∧
    "Unexpected payload data type received" ≠ "Unknown data type" :=
  (remote_command_tag_rejected DataType.Response [] []).2 0 0 0 9
    (by decide) (by decide) (by decide) (by decide)

/-- Inductive core of the deadline argument for `Backend.try_read`,
    generalized over the bytes accumulated on entry. -/
theorem try_read_deadline_aux (len : Nat) (block : Bool) (e : ReadEvent)
    (post : List ReadEvent) (he_time : READ_TIMEOUT_MS < e.elapsed) :
    ∀ (pre : List ReadEvent) (pos : Nat),
      retainedSteps block pos pre = true →
      pos + okBytes pre < len →
      ((∃ n, e.outcome = ReadOutcome.ok (n + 1)) ∨
        (e.outcome = ReadOutcome.transient ∧ (block = true ∨ 0 < pos + okBytes pre))) →
      Backend.try_read len block pos (pre ++ e :: post) = .error "Read timeout" := by
  intro pre
  induction pre with
  | nil =>
    intro pos hret hlt hek
    have hpos0 : ¬ len ≤ pos := by
      simp [okBytes] at hlt
      omega
    rcases hek with ⟨n, hn⟩ | ⟨ht, hb⟩
    · simp only [List.nil_append, Backend.try_read, hn]
      rw [if_neg hpos0, if_pos he_time]
    · have hnb : ¬(¬block = true ∧ pos = 0) := by
        rcases hb with hb | hb
        · simp [hb]
        · simp [okBytes] at hb
          rintro ⟨h1, h2⟩
          omega
      simp only [List.nil_append, Backend.try_read, ht]
      rw [if_neg hpos0, if_neg hnb, if_pos he_time]
  | cons ev pre ih =>
    intro pos hret hlt hek
    have hpos : ¬ len ≤ pos := by
      simp [okBytes] at hlt
      omega
    match ho : ev.outcome with
    | ReadOutcome.ok 0 =>
      rw [retainedSteps, ho] at hret
      simp at hret
    | ReadOutcome.ok (n + 1) =>
      rw [retainedSteps, ho] at hret
      simp only [Bool.and_eq_true, decide_eq_true_eq] at hret
      simp only [List.cons_append, Backend.try_read, ho]
      rw [if_neg hpos, if_neg (by omega)]
      have hsum : okBytes (ev :: pre) = (n + 1) + okBytes pre := by
        simp [okBytes, ho, okBytesOf]
      rw [hsum] at hlt hek
      apply ih (pos + (n + 1)) hret.2 (by omega)
      rcases hek with h | ⟨h1, h2⟩
      · exact Or.inl h
      · refine Or.inr ⟨h1, ?_⟩
        rcases h2 with h2 | h2
        · exact Or.inl h2
        · right
          omega
    | ReadOutcome.transient =>
      rw [retainedSteps, ho] at hret
      simp only [Bool.and_eq_true, Bool.or_eq_true, decide_eq_true_eq] at hret
      have hnb : ¬(¬block = true ∧ pos = 0) := by
        rcases hret.1.1 with h | h
        · simp [h]
        · rintro ⟨h1, h2⟩
          omega
      simp only [List.cons_append, Backend.try_read, ho]
      rw [if_neg hpos, if_neg hnb, if_neg (by omega)]
      have hsum : okBytes (ev :: pre) = okBytes pre := by
        simp [okBytes, ho, okBytesOf]
      rw [hsum] at hlt hek
      apply ih pos hret.2 (by omega)
      exact hek
    | ReadOutcome.fatal msg =>
      rw [retainedSteps, ho] at hret
      simp at hret

/-- C8: for every buffer length and every trace of read outcomes on which
    the retry loop keeps retrying with fewer than the required bytes
    accumulated, an iteration that observes more than `READ_TIMEOUT` (5 s)
    elapsed since `try_read` entry — trickling reads included — makes the
    call fail with the "Read timeout" error rather than retry further. -/
theorem try_read_times_out (len : Nat) (block : Bool) (pre : List ReadEvent) (e : ReadEvent)
    (post : List ReadEvent)
    (hret : retainedSteps block 0 pre = true)
    (hlt : okBytes pre < len)
    (he_time : READ_TIMEOUT_MS < e.elapsed)
    (hek : (∃ n, e.outcome = ReadOutcome.ok (n + 1)) ∨
      (e.outcome = ReadOutcome.transient ∧ (block = true ∨ 0 < okBytes pre))) :
    Backend.try_read len block 0 (pre ++ e :: post) = .error "Read timeout" := by
  apply try_read_deadline_aux len block e post he_time pre 0 hret (by omega)
  simpa using hek

/-- Witness for C8: one byte trickles in at 100 ms toward a 2-byte
    blocking read, then a transient poll at 6000 ms: the call fails with
    "Read timeout". -/
theorem try_read_times_out_witness :
    Backend.try_read 2 true 0
        ([⟨ReadOutcome.ok 1, 100⟩] ++ ⟨ReadOutcome.transient, 6000⟩ :: []) =
      .error "Read timeout" :=
  try_read_times_out 2 true [⟨ReadOutcome.ok 1, 100⟩] ⟨ReadOutcome.transient, 6000⟩ []
    (by decide) (by decide) (by decide) (Or.inr ⟨rfl, Or.inl rfl⟩)
